import Mathlib

/-!
Verification development for the GitHub README Generator server (`server.js`).

The server-side logic is shallowly embedded: pure computations become Lean
functions, the Express handlers become functions from the session state and
the outcomes of the upstream HTTP calls (passed in as `Except` oracles) to
the resulting session state and response.  JavaScript `||`-defaulting on
possibly-missing strings is modelled with `Option String` plus an explicit
falsy check (JS treats both `undefined`/`null` and `""` as falsy).
-/

set_option maxRecDepth 100000

/-! ## String utilities

`containsCL pat hay` is JavaScript's `hay.includes(pat)` on character lists;
`containsSubstr pat s` the same on strings. -/

def isPrefixCL : List Char → List Char → Bool
  | [], _ => true
  | _ :: _, [] => false
  | a :: as, b :: bs => a == b && isPrefixCL as bs

def containsCL (pat : List Char) : List Char → Bool
  | [] => isPrefixCL pat []
  | c :: rest => isPrefixCL pat (c :: rest) || containsCL pat rest

def containsSubstr (pat s : String) : Bool := containsCL pat.data s.data

theorem data_append (a b : String) : (a ++ b).data = a.data ++ b.data := rfl

theorem isPrefixCL_append_self (p r : List Char) : isPrefixCL p (p ++ r) = true := by
  induction p with
  | nil => rfl
  | cons a as ih => simp [isPrefixCL, ih]

theorem containsCL_append_right (p ys : List Char) (xs : List Char)
    (h : containsCL p ys = true) : containsCL p (xs ++ ys) = true := by
  induction xs with
  | nil => simpa using h
  | cons c cs ih => simp [containsCL, ih]

theorem containsCL_self_append (p r : List Char) : containsCL p (p ++ r) = true := by
  cases p with
  | nil => cases r <;> simp [containsCL, isPrefixCL]
  | cons a as =>
    simp only [containsCL, Bool.or_eq_true]
    exact Or.inl (isPrefixCL_append_self (a :: as) r)

/-- JS truthiness of a possibly-absent string: `undefined`/`null` and `""` are falsy. -/
def jsTruthyStr : Option String → Bool
  | none => false
  | some s => !(s == "")

/-- JS `x || dflt` for a possibly-absent string `x`. -/
def jsOr (x : Option String) (dflt : String) : String :=
  match x with
  | none => dflt
  | some s => if s == "" then dflt else s

/-- JS template interpolation of a possibly-undefined string (`undefined` prints as "undefined"). -/
def jsStr : Option String → String
  | none => "undefined"
  | some s => s

/-! ## Session model and OAuth flow controller

A session record holds `oauthState`, `accessToken` and `user`
(`server.js` stores them on `req.session`). -/

structure GitHubUser where
  login : String
  name : Option String
  avatar_url : Option String
deriving DecidableEq, Repr

structure Session where
  oauthState : Option String
  accessToken : Option String
  user : Option GitHubUser
deriving DecidableEq, Repr

/-- Outcome of `GET /auth/github` (`server.js` lines 127-144). -/
inductive StartResult where
  | configError
  | redirect (url : String)
deriving DecidableEq, Repr

/-- `GET /auth/github` handler: generates a nonce, stores it in
`session.oauthState`, then checks the redirect URI and either fails with a
500 configuration error or redirects to the authorize URL.  The random nonce
and the environment configuration are parameters. -/
def startAuth (session : Session) (nonce : String)
    (redirectUri clientId : Option String) : Session × StartResult :=
  let s1 := { session with oauthState := some nonce }
  if jsTruthyStr redirectUri then
    (s1, .redirect ("https://github.com/login/oauth/authorize?client_id=" ++ jsStr clientId ++
      "&redirect_uri=" ++ jsStr redirectUri ++ "&scope=repo&state=" ++ nonce))
  else
    (s1, .configError)

/-- Outcome of `GET /auth/github/callback` (`server.js` lines 146-204). -/
inductive CallbackResult where
  | invalidStateRedirect
  | configError
  | authFailedRedirect
  | successRedirect
deriving DecidableEq, Repr

/-- `GET /auth/github/callback` handler.  `tokenExchange` is the outcome of the
POST to `github.com/login/oauth/access_token` (`.ok v` with `v` the optional
`access_token` field of the response body; `.error` a transport failure) and
`userFetch` the outcome of the GET to `api.github.com/user`; both throws are
caught by the surrounding `try`/`catch`, which redirects to the generic
`/?error=auth_failed`.  Mirrors the source exactly: state check first, then
redirect-URI check, then exchange, then `if (!access_token) throw` — a JS
falsiness check, so a missing and an empty `access_token` both take the
failure path — then `session.accessToken` is committed, then the identity
fetch, then `session.user`. -/
def callback (session : Session) (code state : Option String)
    (redirectUri : Option String)
    (tokenExchange : Except Unit (Option String))
    (userFetch : Except Unit GitHubUser) : Session × CallbackResult :=
  if state = session.oauthState then
    if jsTruthyStr redirectUri then
      match tokenExchange with
      | .error _ => (session, .authFailedRedirect)
      | .ok access_token =>
        if jsTruthyStr access_token then
          let s1 := { session with accessToken := access_token }
          match userFetch with
          | .error _ => (s1, .authFailedRedirect)
          | .ok u => ({ s1 with user := some u }, .successRedirect)
        else (session, .authFailedRedirect)
    else (session, .configError)
  else (session, .invalidStateRedirect)

/-- C3: for all sessions and inputs, a callback whose `state` differs from the
session's `oauthState` returns the session unchanged (so `accessToken` is
never set) with the generic invalid-state redirect; the result does not
depend on the token-exchange or identity-fetch oracles, so no upstream
exchange is attempted. -/
theorem callback_csrf_rejection (s : Session) (code st uri : Option String)
    (tex : Except Unit (Option String)) (uf : Except Unit GitHubUser)
    (h : st ≠ s.oauthState) :
    callback s code st uri tex uf = (s, .invalidStateRedirect) := by
  simp [callback, h]

/-- Witness for `callback_csrf_rejection` at a concrete mismatching state. -/
theorem callback_csrf_rejection_witness :
    (some "attacker" ≠ (Session.mk (some "n1") none none).oauthState) ∧
    callback (Session.mk (some "n1") none none) (some "c") (some "attacker")
      (some "https://cb") (.ok (some "tok")) (.ok (GitHubUser.mk "alice" none none)) =
      (Session.mk (some "n1") none none, .invalidStateRedirect) := by
  refine ⟨by decide, callback_csrf_rejection _ _ _ _ _ _ (by decide)⟩

/-- C1 counterexample: the callback never clears `oauthState`.  After a first
fully successful callback for state `"n1"`, the session still carries
`oauthState = some "n1"`, and replaying the same `(code, state)` pair (with
the upstream exchange again granting a token) succeeds a second time instead
of failing with the invalid-state redirect. -/
theorem oauthState_not_single_use_cex :
    (callback (Session.mk (some "n1") none none) (some "c") (some "n1")
        (some "https://cb") (.ok (some "tok")) (.ok (GitHubUser.mk "alice" none none))).2 =
      .successRedirect ∧
    (callback (Session.mk (some "n1") none none) (some "c") (some "n1")
        (some "https://cb") (.ok (some "tok")) (.ok (GitHubUser.mk "alice" none none))).1.oauthState =
      some "n1" ∧
    (callback
        (callback (Session.mk (some "n1") none none) (some "c") (some "n1")
          (some "https://cb") (.ok (some "tok")) (.ok (GitHubUser.mk "alice" none none))).1
        (some "c") (some "n1")
        (some "https://cb") (.ok (some "tok")) (.ok (GitHubUser.mk "alice" none none))).2 =
      .successRedirect := by
  decide

/-- C1 amended: the callback leaves `oauthState` untouched in every branch, so
after a callback with matching state (successful or not) the nonce is still
set; consequently a replayed `(code, state)` pair passes state validation
again and never terminates with the invalid-state redirect — its outcome is
decided solely by the upstream token exchange. -/
theorem oauthState_persists_after_callback (s : Session) (n : String)
    (code uri : Option String) (tex : Except Unit (Option String))
    (uf : Except Unit GitHubUser) :
    (callback { s with oauthState := some n } code (some n) uri tex uf).1.oauthState = some n ∧
    (callback { s with oauthState := some n } code (some n) uri tex uf).2 ≠
      .invalidStateRedirect := by
  rcases tex with e | v
  · by_cases h : jsTruthyStr uri <;> simp [callback, h]
  · rcases uf with e | u <;> by_cases h : jsTruthyStr uri <;>
      by_cases hv : jsTruthyStr v <;> simp [callback, h, hv]

/-- C2 counterexample: callback on an unauthenticated session where the token
exchange succeeds but the identity fetch fails commits the token alone: the
resulting session has `accessToken = some "tok"` and `user = none` even
though the handler terminates with the generic auth-failed redirect. -/
theorem callback_partial_commit_cex :
    callback (Session.mk (some "n1") none none) (some "c") (some "n1")
        (some "https://cb") (.ok (some "tok")) (.error ()) =
      (Session.mk (some "n1") (some "tok") none, .authFailedRedirect) ∧
    Session.mk (some "n1") (some "tok") none ≠ Session.mk (some "n1") none none := by
  decide

/-- C2 amended: failures at or before the token exchange — transport failure,
a response without an `access_token`, or a falsy (empty-string)
`access_token` — leave the session exactly in its prior state; but once the
exchange returns a truthy token the token is committed immediately, so a
subsequent identity-fetch failure leaves the session with `accessToken` set
and `user` unchanged — the token alone is committed. -/
theorem callback_commit_behavior (s : Session) (n t : String)
    (code : Option String) (uri : Option String) (huri : jsTruthyStr uri = true)
    (ht : t ≠ "") (uf : Except Unit GitHubUser) (e : Unit) :
    callback { s with oauthState := some n } code (some n) uri (.error e) uf =
      ({ s with oauthState := some n }, .authFailedRedirect) ∧
    callback { s with oauthState := some n } code (some n) uri (.ok none) uf =
      ({ s with oauthState := some n }, .authFailedRedirect) ∧
    callback { s with oauthState := some n } code (some n) uri (.ok (some "")) uf =
      ({ s with oauthState := some n }, .authFailedRedirect) ∧
    callback { s with oauthState := some n } code (some n) uri (.ok (some t)) (.error e) =
      ({ s with oauthState := some n, accessToken := some t }, .authFailedRedirect) ∧
    (∀ u : GitHubUser,
      callback { s with oauthState := some n } code (some n) uri (.ok (some t)) (.ok u) =
        ({ s with oauthState := some n, accessToken := some t, user := some u },
          .successRedirect)) := by
  have htt : jsTruthyStr (some t) = true := by simp [jsTruthyStr, ht]
  have hnone : jsTruthyStr (none : Option String) = false := rfl
  have hempty : jsTruthyStr (some "") = false := rfl
  refine ⟨?_, ?_, ?_, ?_, fun u => ?_⟩
  · simp [callback, huri]
  · simp [callback, huri, hnone]
  · simp [callback, huri, hempty]
  · simp [callback, huri, htt]
  · simp [callback, huri, htt]

/-- Witness for `callback_commit_behavior` at concrete inputs: a truthy
token followed by a failing identity fetch commits the token alone. -/
theorem callback_commit_behavior_witness :
    jsTruthyStr (some "https://cb") = true ∧ "t0" ≠ "" ∧
    callback { Session.mk none none none with oauthState := some "n1" } (some "c") (some "n1")
        (some "https://cb") (.ok (some "t0")) (.error ()) =
      ({ Session.mk none none none with oauthState := some "n1", accessToken := some "t0" },
        .authFailedRedirect) :=
  ⟨by decide, by decide,
    (callback_commit_behavior (Session.mk none none none) "n1" "t0" (some "c")
      (some "https://cb") (by decide) (by decide)
      (.ok (GitHubUser.mk "a" none none)) ()).2.2.2.1⟩

/-- C5 counterexample: `GET /auth/github` with the redirect URI unset does
return the 500 configuration error and issues no redirect, but it mutates the
session first: `oauthState` has already been set to the fresh nonce. -/
theorem start_mutates_session_cex :
    (startAuth (Session.mk none none none) "n1" none none).2 = .configError ∧
    (startAuth (Session.mk none none none) "n1" none none).1.oauthState = some "n1" ∧
    (startAuth (Session.mk none none none) "n1" none none).1 ≠ Session.mk none none none := by
  decide

/-- C5 amended: with the redirect URI unset the flow fails with the
configuration error (HTTP 500) and no redirect is issued, but the session is
not left unmutated: the handler stores the fresh nonce in `oauthState` before
performing the configuration check. -/
theorem start_missing_redirect_uri (s : Session) (nonce : String) (clientId : Option String) :
    startAuth s nonce none clientId = ({ s with oauthState := some nonce }, .configError) := rfl

/-! ## Response sanitizer

`server.js` lines 70-89: every `res.json(data)` is replaced by
`originalJson(JSON.parse(JSON.stringify(data, replacer)))` where the replacer
returns `'[REDACTED]'` whenever the value is a string and either the value
contains one of the GitHub token prefixes `ghp_`/`gho_`/`ghs_` or the
lower-cased key contains `"token"` or `"secret"`.  JSON trees are modelled by
the mutual inductives below; `JSON.stringify` walks the tree top-down calling
the replacer on every key/value pair (array elements get their index as key,
the root gets the empty key). -/

mutual
inductive JValue where
  | str : String → JValue
  | num : Int → JValue
  | bool : Bool → JValue
  | null : JValue
  | arr : JArr → JValue
  | obj : JObj → JValue
inductive JArr where
  | nil : JArr
  | cons : JValue → JArr → JArr
inductive JObj where
  | nil : JObj
  | cons : String → JValue → JObj → JObj
end
deriving instance DecidableEq for JValue, JArr, JObj

/-- One secret-prefix check of the replacer: `value.includes('ghp_') || ...`. -/
def secretString (s : String) : Bool :=
  containsSubstr "ghp_" s || containsSubstr "gho_" s || containsSubstr "ghs_" s

/-- Character-wise lower-casing (JS `toLowerCase()`; the keys occurring in the
server's payloads are ASCII, where the two agree). -/
def lowerAscii (s : String) : String := ⟨s.data.map Char.toLower⟩

/-- Key check of the replacer: `key.toLowerCase().includes('token') || key.toLowerCase().includes('secret')`. -/
def secretKey (k : String) : Bool :=
  containsSubstr "token" (lowerAscii k) || containsSubstr "secret" (lowerAscii k)

mutual
/-- The `JSON.stringify` replacer of the sanitizer middleware, applied
recursively: a string value is replaced by `'[REDACTED]'` when it contains a
token prefix or its key's lowercase form contains `token`/`secret`; any
non-string value is kept and recursed into. -/
def sanitizeValue (key : String) : JValue → JValue
  | .str s => if secretString s || secretKey key then .str "[REDACTED]" else .str s
  | .num n => .num n
  | .bool b => .bool b
  | .null => .null
  | .arr xs => .arr (sanitizeArr 0 xs)
  | .obj fs => .obj (sanitizeObj fs)
def sanitizeArr (i : Nat) : JArr → JArr
  | .nil => .nil
  | .cons v t => .cons (sanitizeValue (toString i) v) (sanitizeArr (i + 1) t)
def sanitizeObj : JObj → JObj
  | .nil => .nil
  | .cons k v t => .cons k (sanitizeValue k v) (sanitizeObj t)
end

/-- Whether a value is either not a string or is exactly the redaction marker. -/
def redactedIfStr : JValue → Bool
  | .str s => s == "[REDACTED]"
  | _ => true

mutual
/-- No string value anywhere in the tree contains a token prefix, and every
object field with a token/secret key holds either a non-string or the literal
redaction marker. -/
def cleanV : JValue → Bool
  | .str s => !secretString s
  | .num _ => true
  | .bool _ => true
  | .null => true
  | .arr xs => cleanA xs
  | .obj fs => cleanO fs
def cleanA : JArr → Bool
  | .nil => true
  | .cons v t => cleanV v && cleanA t
def cleanO : JObj → Bool
  | .nil => true
  | .cons k v t => cleanV v && (!secretKey k || redactedIfStr v) && cleanO t
end

theorem secretString_redacted : secretString "[REDACTED]" = false := by decide

mutual
theorem cleanV_sanitize : ∀ (key : String) (v : JValue), cleanV (sanitizeValue key v) = true
  | key, .str s => by
    simp only [sanitizeValue]
    split
    · simp [cleanV, secretString_redacted]
    · rename_i h
      have hs : secretString s = false := by
        rcases Bool.eq_false_or_eq_true (secretString s) with hh | hh
        · exact absurd (by simp [hh]) h
        · exact hh
      simp [cleanV, hs]
  | _, .num n => rfl
  | _, .bool b => rfl
  | _, .null => rfl
  | key, .arr xs => cleanA_sanitize 0 xs
  | key, .obj fs => cleanO_sanitize fs
theorem cleanA_sanitize : ∀ (i : Nat) (xs : JArr), cleanA (sanitizeArr i xs) = true
  | _, .nil => rfl
  | i, .cons v t => by
    simp [sanitizeArr, cleanA, cleanV_sanitize (toString i) v, cleanA_sanitize (i + 1) t]
theorem cleanO_sanitize : ∀ (fs : JObj), cleanO (sanitizeObj fs) = true
  | .nil => rfl
  | .cons k v t => by
    have hv := cleanV_sanitize k v
    have ht := cleanO_sanitize t
    have hred : (!secretKey k || redactedIfStr (sanitizeValue k v)) = true := by
      by_cases hk : secretKey k = true
      · cases v <;> simp [sanitizeValue, redactedIfStr, hk]
      · simp [Bool.not_eq_true] at hk
        simp [hk]
    simp [sanitizeObj, cleanO, hv, ht, hred]
end

/-- C4 counterexample: the redaction applies only to string values.  A pair
whose key is literally `"token"` but whose value is the number `42` passes
through the sanitizer unchanged — its value is not replaced by the redaction
marker. -/
theorem sanitize_nonstring_secret_key_cex :
    secretKey "token" = true ∧
    sanitizeValue "" (.obj (.cons "token" (.num 42) .nil)) =
      .obj (.cons "token" (.num 42) .nil) ∧
    JValue.num 42 ≠ JValue.str "[REDACTED]" := by
  refine ⟨by decide, rfl, by decide⟩

/-- C4 amended: redaction is restricted to string values.  For every payload,
at any nesting depth, every *string* value that contains a GitHub token
prefix or sits under a key whose lowercase form contains `token`/`secret` is
replaced by the literal redaction marker (so the sanitized output contains no
string value with a token prefix, and under a token/secret key only the
marker or a non-string value); non-string values are never replaced. -/
theorem sanitize_redacts_string_secrets :
    (∀ (key : String) (v : JValue), cleanV (sanitizeValue key v) = true) ∧
    (∀ (key : String) (s : String), secretString s = true ∨ secretKey key = true →
      sanitizeValue key (.str s) = .str "[REDACTED]") := by
  refine ⟨cleanV_sanitize, fun key s h => ?_⟩
  rcases h with h | h <;> simp [sanitizeValue, h]

/-- Witness for `sanitize_redacts_string_secrets`: a GitHub token value under
an innocuous key is redacted. -/
theorem sanitize_redacts_string_secrets_witness :
    (secretString "ghp_abc123" = true ∨ secretKey "data" = true) ∧
    sanitizeValue "data" (.str "ghp_abc123") = .str "[REDACTED]" :=
  ⟨Or.inl (by decide),
    sanitize_redacts_string_secrets.2 "data" "ghp_abc123" (Or.inl (by decide))⟩

/-! ## Repository data aggregator

`fetchRepoData` (`server.js` lines 225-276) issues four upstream calls via
`Promise.all`; the contents and commits calls carry `.catch(() => ({data: []}))`
so their failures degrade to an empty array, while a failure of the repo
profile or languages call rejects the whole `Promise.all` and is classified
into a human-readable error message in the `catch` block.  The upstream
outcomes are oracle parameters; directory entries are abstracted to their
`name` field (the only field the handler reads) and the languages response to
its key set (`Object.keys`). -/

/-- A failed upstream axios call: the optional HTTP status
(`error.response?.status`, absent on transport errors), whether the 403 body's
message contains `'rate limit'`, and the raw error message. -/
structure FetchFailure where
  status : Option Nat
  rateLimitedMsg : Bool
  message : String
deriving DecidableEq, Repr

/-- The repo-profile response fields read by the handler
(`repoData.data.*`). -/
structure RepoProfile where
  name : String
  description : Option String
  isPrivate : Bool
  stargazers_count : Nat
  forks_count : Nat
  language : Option String
  topics : Option (List String)
  license : Option String
  html_url : String
  created_at : String
  updated_at : String
  open_issues_count : Nat
  watchers_count : Nat
  default_branch : String
deriving DecidableEq, Repr

/-- One element of the commits response; `commits.data[0]?.commit?.message`
walks two optional levels. -/
structure CommitEntry where
  commit : Option (Option String)
deriving DecidableEq, Repr

/-- The normalized repository descriptor returned by `fetchRepoData`. -/
structure RepoData where
  name : String
  description : Option String
  isPrivate : Bool
  stars : Nat
  forks : Nat
  language : Option String
  topics : List String
  license : Option String
  languages : List String
  files : List String
  url : String
  createdAt : String
  updatedAt : String
  openIssues : Nat
  watchers : Nat
  defaultBranch : String
  lastCommit : String
deriving DecidableEq, Repr

/-- `commits.data[0]?.commit?.message || 'No commits yet'` (JS `||`: a missing
first commit, a missing message and an empty message all fall back). -/
def lastCommitOf (commits : List CommitEntry) : String :=
  match commits.head? with
  | none => "No commits yet"
  | some e =>
    match e.commit with
    | none => "No commits yet"
    | some none => "No commits yet"
    | some (some m) => if m == "" then "No commits yet" else m

/-- The `catch` block of `fetchRepoData`: classify a required-call failure
into its error message (`server.js` lines 261-275). -/
def classifyFetchError (e : FetchFailure) : String :=
  if e.status = some 401 then
    "Authentication expired. Please login again to access this repository."
  else if e.status = some 403 then
    if e.rateLimitedMsg then "GitHub API rate limit exceeded. Please try again later."
    else "You do not have permission to access this repository."
  else if e.status = some 404 then
    "Repository not found. If this is a private repository, please login with GitHub."
  else
    "Failed to fetch repository: " ++ e.message

/-- `fetchRepoData`: the profile and languages calls are required (their
failure aborts the fetch with a classified error message; the profile call is
first in the `Promise.all` array, so its rejection wins when both fail),
while contents and commits degrade to `data: []`. -/
def fetchRepoData (repoResp : Except FetchFailure RepoProfile)
    (languagesResp : Except FetchFailure (List String))
    (contentsResp : Except FetchFailure (List String))
    (commitsResp : Except FetchFailure (List CommitEntry)) :
    Except String RepoData :=
  match repoResp, languagesResp with
  | .ok p, .ok langs =>
    .ok { name := p.name
          description := p.description
          isPrivate := p.isPrivate
          stars := p.stargazers_count
          forks := p.forks_count
          language := p.language
          topics := p.topics.getD []
          license := p.license
          languages := langs
          files := contentsResp.toOption.getD []
          url := p.html_url
          createdAt := p.created_at
          updatedAt := p.updated_at
          openIssues := p.open_issues_count
          watchers := p.watchers_count
          defaultBranch := p.default_branch
          lastCommit := lastCommitOf (commitsResp.toOption.getD []) }
  | .error e, _ => .error (classifyFetchError e)
  | .ok _, .error e => .error (classifyFetchError e)

/-- The status mapping of `POST /api/generate-readme`'s catch block
(`server.js` lines 315-325): substring-sniffing on the error message. -/
def statusCodeFor (msg : String) : Nat :=
  if containsSubstr "Authentication" msg then 401
  else if containsSubstr "rate limit" msg then 429
  else if containsSubstr "not found" msg then 404
  else 500

/-- The `requiresAuth` hint of the same catch block. -/
def requiresAuthFor (msg : String) : Bool :=
  containsSubstr "login" msg || containsSubstr "Authentication" msg

/-- C7: whenever the profile and languages calls succeed while the
directory-listing and latest-commit calls fail, `fetchRepoData` raises no
error and returns the descriptor with `files = []` and
`lastCommit = "No commits yet"`. -/
theorem fetchRepoData_best_effort_degradation (p : RepoProfile) (langs : List String)
    (e1 e2 : FetchFailure) :
    fetchRepoData (.ok p) (.ok langs) (.error e1) (.error e2) =
      .ok { name := p.name, description := p.description, isPrivate := p.isPrivate,
            stars := p.stargazers_count, forks := p.forks_count, language := p.language,
            topics := p.topics.getD [], license := p.license, languages := langs,
            files := [], url := p.html_url, createdAt := p.created_at,
            updatedAt := p.updated_at, openIssues := p.open_issues_count,
            watchers := p.watchers_count, defaultBranch := p.default_branch,
            lastCommit := "No commits yet" } := rfl

/-- C6 counterexample: a required-call failure with HTTP 403 and no rate-limit
indicator is classified into the permission-denied message, but the API
surface maps that message to HTTP 500 (not 403) with `requiresAuth = false`
(no hint). -/
theorem permission_error_maps_to_500_cex :
    classifyFetchError (FetchFailure.mk (some 403) false "Forbidden") =
      "You do not have permission to access this repository." ∧
    statusCodeFor (classifyFetchError (FetchFailure.mk (some 403) false "Forbidden")) = 500 ∧
    requiresAuthFor (classifyFetchError (FetchFailure.mk (some 403) false "Forbidden")) = false := by
  refine ⟨rfl, by decide, by decide⟩

/-- C6 amended: the endpoint can never answer HTTP 403 at all (the
substring-based mapping only produces 401, 429, 404 or 500); the classified
kinds map as 401→401 with `requiresAuth`, rate-limited 403→429, plain
403→500 without `requiresAuth` hint, 404→404 with `requiresAuth`. -/
theorem error_kind_status_mapping :
    (∀ msg : String, statusCodeFor msg ≠ 403) ∧
    statusCodeFor (classifyFetchError (FetchFailure.mk (some 401) false "")) = 401 ∧
    requiresAuthFor (classifyFetchError (FetchFailure.mk (some 401) false "")) = true ∧
    statusCodeFor (classifyFetchError (FetchFailure.mk (some 403) true "")) = 429 ∧
    statusCodeFor (classifyFetchError (FetchFailure.mk (some 403) false "")) = 500 ∧
    requiresAuthFor (classifyFetchError (FetchFailure.mk (some 403) false "")) = false ∧
    statusCodeFor (classifyFetchError (FetchFailure.mk (some 404) false "")) = 404 ∧
    requiresAuthFor (classifyFetchError (FetchFailure.mk (some 404) false "")) = true := by
    refine ⟨fun msg => ?_, by decide, by decide, by decide, by decide, by decide, by decide,
      by decide⟩
    unfold statusCodeFor
    split
    · decide
    · split
      · decide
      · split
        · decide
        · decide

/-! ## Repository listing

`GET /api/repositories` (`server.js` lines 329-370): maps the upstream page
to a trimmed representation and reports `total = repos.length` and
`hasMore = (repos.length === parseInt(per_page))`. -/

/-- Fields of an upstream repository object read by the listing handler. -/
structure UpstreamRepo where
  name : String
  full_name : String
  description : Option String
  isPrivate : Bool
  html_url : String
  language : Option String
  stargazers_count : Nat
  updated_at : String
deriving DecidableEq, Repr

structure RepoListItem where
  name : String
  full_name : String
  description : Option String
  isPrivate : Bool
  url : String
  language : Option String
  stars : Nat
  updated_at : String
deriving DecidableEq, Repr

structure RepoListResponse where
  repositories : List RepoListItem
  total : Nat
  page : Nat
  hasMore : Bool
deriving DecidableEq, Repr

/-- The successful branch of the listing handler; `perPage` and `page` are the
already-parsed query parameters. -/
def listRepositories (upstream : List UpstreamRepo) (perPage page : Nat) : RepoListResponse :=
  let repos := upstream.map fun r =>
    RepoListItem.mk r.name r.full_name r.description r.isPrivate r.html_url r.language
      r.stargazers_count r.updated_at
  { repositories := repos
    total := repos.length
    page := page
    hasMore := repos.length == perPage }

/-- C10: on every successful listing call, `total` equals the number of
repositories in the returned page (the length of the mapped upstream page,
not a cross-page count) and `hasMore` is `true` exactly when that per-page
count equals the requested page size. -/
theorem listRepositories_total_hasMore (upstream : List UpstreamRepo) (perPage page : Nat) :
    (listRepositories upstream perPage page).total =
      (listRepositories upstream perPage page).repositories.length ∧
    (listRepositories upstream perPage page).total = upstream.length ∧
    ((listRepositories upstream perPage page).hasMore = true ↔
      (listRepositories upstream perPage page).repositories.length = perPage) := by
  refine ⟨rfl, by simp [listRepositories], ?_⟩
  simp [listRepositories]

/-! ## Document generator

`generateFallbackReadme` (`server.js` lines 431-538) builds the `sections`
object, one member per section block, and returns
`Object.values(sections).join('\n\n')`; with the twelve members statically
known, the join is written out as the corresponding `++` chain.  The
repeated inline condition
`repoData.language === L || repoData.languages.includes(L)` is the helper
`jsUsesLang`; `new Date(...).toLocaleDateString()` is the environment's
date formatter, passed in as `fmt`. -/

def jsUsesLang (d : RepoData) (l : String) : Bool :=
  d.language == some l || d.languages.contains l

/-- The `privateNotice` local of `generateFallbackReadme`. -/
def privateNotice (d : RepoData) : String :=
  if d.isPrivate then "\n## \u011f\u0178\u201d\u2019 Private Repository\n\nThis is a private repository. Access is restricted to authorized collaborators only.\n\n" else ""

/-- The `title` member of the `sections` object in `generateFallbackReadme`. -/
def fbTitle (d : RepoData) : String :=
  "# " ++
    d.name ++
    " " ++
    (if d.isPrivate then "\u011f\u0178\u201d\u2019" else "")

/-- The `badges` member of the `sections` object in `generateFallbackReadme`. -/
def fbBadges (d : RepoData) : String :=
  (if d.isPrivate then "![Private](https://img.shields.io/badge/Repository-Private-red)" else "") ++
    "\n![GitHub stars](https://img.shields.io/badge/stars-" ++
    toString d.stars ++
    "-yellow)\n![GitHub forks](https://img.shields.io/badge/forks-" ++
    toString d.forks ++
    "-blue)\n![GitHub language](https://img.shields.io/badge/language-" ++
    jsOr d.language "Multiple" ++
    "-green)\n![GitHub issues](https://img.shields.io/badge/issues-" ++
    toString d.openIssues ++
    "-orange)"

/-- The `description` member of the `sections` object in `generateFallbackReadme`. -/
def fbDescription (d : RepoData) : String :=
  "## \u011f\u0178\u201c Description\n\n" ++
    jsOr d.description "A GitHub repository that needs a description." ++
    "\n\n" ++
    privateNotice d

/-- The `features` member of the `sections` object in `generateFallbackReadme`. -/
def fbFeatures (fmt : String → String) (d : RepoData) : String :=
  "## \u00e2\u0153\u00a8 Features\n\n- Built with " ++
    jsOr d.language "multiple languages" ++
    "\n- " ++
    toString d.stars ++
    " stars on GitHub\n- Active development with " ++
    toString d.forks ++
    " forks\n- " ++
    toString d.openIssues ++
    " open issues\n- Last updated: " ++
    fmt d.updatedAt ++
    "\n" ++
    (if d.topics.length > 0 then "- Topics: " ++ String.intercalate ", " (d.topics.map fun topic => "`" ++ topic ++ "`") else "")

/-- The `techStack` member of the `sections` object in `generateFallbackReadme`. -/
def fbTechStack (d : RepoData) : String :=
  "## \u011f\u0178\u203a\u00a0\u00ef\u00b8 Tech Stack\n\n" ++
    (if d.languages.length > 0 then String.intercalate "\n" (d.languages.map fun lang => "- " ++ lang) else "- " ++ jsOr d.language "Not specified")

/-- The `prerequisites` member of the `sections` object in `generateFallbackReadme`. -/
def fbPrerequisites (d : RepoData) : String :=
  "## \u011f\u0178\u201c\u2039 Prerequisites\n\nBefore you begin, ensure you have met the following requirements:\n- Git installed on your machine\n- " ++
    (if jsUsesLang d "JavaScript" then "Node.js and npm installed" else "") ++
    "\n- " ++
    (if jsUsesLang d "Python" then "Python 3.x installed" else "") ++
    "\n- " ++
    (if jsUsesLang d "Java" then "Java JDK installed" else "") ++
    "\n- " ++
    (if d.isPrivate then "Access permissions to this private repository" else "")

/-- The `installation` member of the `sections` object in `generateFallbackReadme`. -/
def fbInstallation (d : RepoData) : String :=
  "## \u011f\u0178\u0161\u20ac Installation\n\n1. Clone the repository:\n```bash\ngit clone " ++
    d.url ++
    "\ncd " ++
    d.name ++
    "\n```\n\n2. Install dependencies:\n```bash\n" ++
    (if jsUsesLang d "JavaScript" then "npm install" else "") ++
    "\n" ++
    (if jsUsesLang d "Python" then "pip install -r requirements.txt" else "") ++
    "\n" ++
    (if jsUsesLang d "Java" then "mvn install" else "") ++
    "\n" ++
    (if !jsTruthyStr d.language then "# Install dependencies based on your project type" else "") ++
    "\n```"

/-- The `usage` member of the `sections` object in `generateFallbackReadme`. -/
def fbUsage (d : RepoData) : String :=
  "## \u011f\u0178\u2019\u00bb Usage\n\n```bash\n" ++
    (if jsUsesLang d "JavaScript" then "npm start" else "") ++
    "\n" ++
    (if jsUsesLang d "Python" then "python main.py" else "") ++
    "\n" ++
    (if jsUsesLang d "Java" then "java -jar target/app.jar" else "") ++
    "\n" ++
    (if !jsTruthyStr d.language then "# Run the project based on your setup" else "") ++
    "\n```"

/-- The `projectStructure` member of the `sections` object in `generateFallbackReadme`. -/
def fbProjectStructure (d : RepoData) : String :=
  "## \u011f\u0178\u201c Project Structure\n\n```\n" ++
    d.name ++
    "/\n" ++
    String.intercalate "\n" ((d.files.take 10).map fun file => "\u00e2\u201d\u0153\u00e2\u201d\u20ac\u00e2\u201d\u20ac " ++ file) ++
    "\n" ++
    (if d.files.length > 10 then "\u00e2\u201d\u201d\u00e2\u201d\u20ac\u00e2\u201d\u20ac ... and " ++ toString (d.files.length - 10) ++ " more files" else "") ++
    "\n```"

/-- The `contributing` member of the `sections` object in `generateFallbackReadme`. -/
def fbContributing : String :=
  "## \u011f\u0178\u00a4 Contributing\n\nContributions are welcome! Please follow these steps:\n\n1. Fork the repository\n2. Create your feature branch (`git checkout -b feature/AmazingFeature`)\n3. Commit your changes (`git commit -m 'Add some AmazingFeature'`)\n4. Push to the branch (`git push origin feature/AmazingFeature`)\n5. Open a Pull Request"

/-- The `license` member of the `sections` object in `generateFallbackReadme`. -/
def fbLicense (d : RepoData) : String :=
  "## \u011f\u0178\u201c\u201e License\n\n" ++
    (if jsTruthyStr d.license then "This project is licensed under the " ++ jsStr d.license ++ "." else "This project is not currently licensed.")

/-- The `contact` member of the `sections` object in `generateFallbackReadme`. -/
def fbContact (d : RepoData) : String :=
  "## \u011f\u0178\u201c\u00a7 Contact\n\n- Repository: [" ++
    d.name ++
    "](" ++
    d.url ++
    ")\n- " ++
    (if d.isPrivate then "This is a private repository. Contact the repository owner for access." else "") ++
    "\n\n---\n\n<div align=\"center\">\nGenerated with \u00e2\u00a4\u00ef\u00b8 by GitHub README Generator\n</div>"


/-- `generateFallbackReadme`: the twelve section blocks joined by a blank
line, in the fixed declaration order of the `sections` object. -/
def generateFallbackReadme (fmt : String → String) (d : RepoData) : String :=
  fbTitle d ++ "\n\n" ++ fbBadges d ++ "\n\n" ++ fbDescription d ++ "\n\n" ++
    fbFeatures fmt d ++ "\n\n" ++ fbTechStack d ++ "\n\n" ++ fbPrerequisites d ++ "\n\n" ++
    fbInstallation d ++ "\n\n" ++ fbUsage d ++ "\n\n" ++ fbProjectStructure d ++ "\n\n" ++
    fbContributing ++ "\n\n" ++ fbLicense d ++ "\n\n" ++ fbContact d

/-- Which branch of `generateReadme` produced the text. -/
inductive DocSource where
  | ai
  | fallback
deriving DecidableEq, Repr

structure GeneratedDocument where
  body : String
  source : DocSource
deriving DecidableEq, Repr

/-- A failure of the generative backend, of any kind. -/
inductive AIFailure where
  | network
  | quota
  | malformedResponse
deriving DecidableEq, Repr

/-- `generateReadme` (`server.js` lines 380-428): one call to the generative
backend (the oracle `aiResult`); on success the model text is returned
verbatim, on any failure the `catch` block returns
`generateFallbackReadme(repoData)`. -/
def generateReadme (fmt : String → String) (aiResult : Except AIFailure String)
    (d : RepoData) : GeneratedDocument :=
  match aiResult with
  | .ok text => { body := text, source := .ai }
  | .error _ => { body := generateFallbackReadme fmt d, source := .fallback }

/-! ## Structure of the fallback document

To reason about the fallback output for every descriptor, the `++`-chain of
`generateFallbackReadme` is related to the flat list of its pieces
(`fallbackPieces`), and section-marker facts are proved generically about
concatenations of piece lists. -/

theorem string_append_assoc (a b c : String) : a ++ b ++ c = a ++ (b ++ c) :=
  String.ext (List.append_assoc a.data b.data c.data)

theorem string_append_empty (a : String) : a ++ "" = a :=
  String.ext (List.append_nil a.data)

/-- Concatenation of a list of strings. -/
def concatR : List String → String
  | [] => ""
  | a :: t => a ++ concatR t

/-- `pats` occur as substrings, in order and without overlap, inside `hay`. -/
def inOrderS : List String → String → Prop
  | [], _ => True
  | p :: ps, hay => ∃ pre rest, hay = pre ++ (p ++ rest) ∧ inOrderS ps rest

theorem inOrderS_prepend (x : String) :
    ∀ {ms : List String} {hay : String}, inOrderS ms hay → inOrderS ms (x ++ hay)
  | [], _, _ => trivial
  | p :: ps, hay, ⟨pre, rest, heq, h⟩ =>
    ⟨x ++ pre, rest, by rw [heq, string_append_assoc], h⟩

theorem inOrderS_concatR {ms ps : List String} (h : List.Sublist ms ps) :
    inOrderS ms (concatR ps) := by
  induction h with
  | slnil => trivial
  | cons a h ih => exact inOrderS_prepend a ih
  | cons₂ a h ih => exact ⟨"", _, rfl, ih⟩

theorem containsSubstr_concatR (p : String) :
    ∀ (ps : List String), p ∈ ps → containsSubstr p (concatR ps) = true
  | a :: t, h => by
    rcases List.mem_cons.mp h with h | h
    · subst h
      exact containsCL_self_append p.data (concatR t).data
    · exact containsCL_append_right _ _ _ (containsSubstr_concatR p t h)

/-- The pieces of the `++`-chain of `generateFallbackReadme`, flattened, in
order. -/
def fallbackPieces (fmt : String → String) (d : RepoData) : List String :=
  [ "# ", d.name, " ", (if d.isPrivate then "ğŸ”’" else ""), "\n\n",
    (if d.isPrivate then "![Private](https://img.shields.io/badge/Repository-Private-red)" else ""),
    "\n![GitHub stars](https://img.shields.io/badge/stars-", toString d.stars,
    "-yellow)\n![GitHub forks](https://img.shields.io/badge/forks-", toString d.forks,
    "-blue)\n![GitHub language](https://img.shields.io/badge/language-", jsOr d.language "Multiple",
    "-green)\n![GitHub issues](https://img.shields.io/badge/issues-", toString d.openIssues,
    "-orange)", "\n\n",
    "## ğŸ“ Description\n\n",
    jsOr d.description "A GitHub repository that needs a description.",
    "\n\n", privateNotice d, "\n\n",
    "## âœ¨ Features\n\n- Built with ", jsOr d.language "multiple languages",
    "\n- ", toString d.stars, " stars on GitHub\n- Active development with ", toString d.forks,
    " forks\n- ", toString d.openIssues, " open issues\n- Last updated: ", fmt d.updatedAt, "\n",
    (if d.topics.length > 0 then "- Topics: " ++ String.intercalate ", " (d.topics.map fun topic => "`" ++ topic ++ "`") else ""),
    "\n\n",
    "## ğŸ› ï¸ Tech Stack\n\n",
    (if d.languages.length > 0 then String.intercalate "\n" (d.languages.map fun lang => "- " ++ lang) else "- " ++ jsOr d.language "Not specified"),
    "\n\n",
    "## ğŸ“‹ Prerequisites\n\nBefore you begin, ensure you have met the following requirements:\n- Git installed on your machine\n- ",
    (if jsUsesLang d "JavaScript" then "Node.js and npm installed" else ""), "\n- ",
    (if jsUsesLang d "Python" then "Python 3.x installed" else ""), "\n- ",
    (if jsUsesLang d "Java" then "Java JDK installed" else ""), "\n- ",
    (if d.isPrivate then "Access permissions to this private repository" else ""),
    "\n\n",
    "## ğŸš€ Installation\n\n1. Clone the repository:\n```bash\ngit clone ",
    d.url, "\ncd ", d.name, "\n```\n\n2. Install dependencies:\n```bash\n",
    (if jsUsesLang d "JavaScript" then "npm install" else ""), "\n",
    (if jsUsesLang d "Python" then "pip install -r requirements.txt" else ""), "\n",
    (if jsUsesLang d "Java" then "mvn install" else ""), "\n",
    (if !jsTruthyStr d.language then "# Install dependencies based on your project type" else ""),
    "\n```", "\n\n",
    "## ğŸ’» Usage\n\n```bash\n",
    (if jsUsesLang d "JavaScript" then "npm start" else ""), "\n",
    (if jsUsesLang d "Python" then "python main.py" else ""), "\n",
    (if jsUsesLang d "Java" then "java -jar target/app.jar" else ""), "\n",
    (if !jsTruthyStr d.language then "# Run the project based on your setup" else ""),
    "\n```", "\n\n",
    "## ğŸ“ Project Structure\n\n```\n", d.name, "/\n",
    String.intercalate "\n" ((d.files.take 10).map fun file => "â”œâ”€â”€ " ++ file),
    "\n",
    (if d.files.length > 10 then "â””â”€â”€ ... and " ++ toString (d.files.length - 10) ++ " more files" else ""),
    "\n```", "\n\n",
    fbContributing, "\n\n",
    "## ğŸ“„ License\n\n",
    (if jsTruthyStr d.license then "This project is licensed under the " ++ jsStr d.license ++ "." else "This project is not currently licensed."),
    "\n\n",
    "## ğŸ“§ Contact\n\n- Repository: [", d.name, "](", d.url, ")\n- ",
    (if d.isPrivate then "This is a private repository. Contact the repository owner for access." else ""),
    "\n\n---\n\n<div align=\"center\">\nGenerated with â¤ï¸ by GitHub README Generator\n</div>" ]

theorem generateFallbackReadme_eq (fmt : String → String) (d : RepoData) :
    generateFallbackReadme fmt d = concatR (fallbackPieces fmt d) := by
  simp only [generateFallbackReadme, fbTitle, fbBadges, fbDescription, fbFeatures,
    fbTechStack, fbPrerequisites, fbInstallation, fbUsage, fbProjectStructure,
    fbLicense, fbContact, fallbackPieces, concatR, string_append_assoc,
    string_append_empty]

/-- The fixed marker opening each of the twelve section blocks of the
fallback document, in block order: title, badges, description, features,
tech stack, prerequisites, installation, usage, project structure,
contributing, license, contact. -/
def fallbackSectionMarkers : List String :=
  [ "# ",
    "\n![GitHub stars](https://img.shields.io/badge/stars-",
    "## \u011f\u0178\u201c Description\n\n",
    "## \u00e2\u0153\u00a8 Features\n\n- Built with ",
    "## \u011f\u0178\u203a\u00a0\u00ef\u00b8 Tech Stack\n\n",
    "## \u011f\u0178\u201c\u2039 Prerequisites\n\nBefore you begin, ensure you have met the following requirements:\n- Git installed on your machine\n- ",
    "## \u011f\u0178\u0161\u20ac Installation\n\n1. Clone the repository:\n```bash\ngit clone ",
    "## \u011f\u0178\u2019\u00bb Usage\n\n```bash\n",
    "## \u011f\u0178\u201c Project Structure\n\n```\n",
    fbContributing,
    "## \u011f\u0178\u201c\u201e License\n\n",
    "## \u011f\u0178\u201c\u00a7 Contact\n\n- Repository: [" ]

theorem fallbackSectionMarkers_sublist (fmt : String → String) (d : RepoData) :
    List.Sublist fallbackSectionMarkers (fallbackPieces fmt d) := by
  unfold fallbackSectionMarkers fallbackPieces
  repeat
    first
    | exact List.nil_sublist _
    | apply List.Sublist.cons₂
    | apply List.Sublist.cons

theorem description_mem_fallbackPieces (fmt : String → String) (d : RepoData) :
    jsOr d.description "A GitHub repository that needs a description." ∈
      fallbackPieces fmt d := by
  unfold fallbackPieces
  repeat
    first
    | exact List.Mem.head _
    | apply List.Mem.tail

theorem privateNotice_mem_fallbackPieces (fmt : String → String) (d : RepoData) :
    privateNotice d ∈ fallbackPieces fmt d := by
  unfold fallbackPieces
  repeat
    first
    | exact List.Mem.head _
    | apply List.Mem.tail

theorem titleMarker_mem_fallbackPieces (fmt : String → String) (d : RepoData) :
    ("# " : String) ∈ fallbackPieces fmt d := by
  unfold fallbackPieces
  exact List.Mem.head _

theorem fallback_nonempty (fmt : String → String) (d : RepoData) :
    generateFallbackReadme fmt d ≠ "" := by
  intro h
  have h2 : containsSubstr "# " (generateFallbackReadme fmt d) = true := by
    rw [generateFallbackReadme_eq]
    exact containsSubstr_concatR _ _ (titleMarker_mem_fallbackPieces fmt d)
  rw [h] at h2
  exact absurd h2 (by decide)

/-- C8: for every descriptor, when the generative-backend call fails — for
any reason — `generateReadme` raises no error and returns exactly the
deterministic fallback `generateFallbackReadme` with source `fallback`, and
that body is never empty.  (`generateReadme` is a total function into
`GeneratedDocument`, so a backend failure is never surfaced as a generation
failure.) -/
theorem generateReadme_fallback_on_ai_failure (fmt : String → String) (d : RepoData)
    (reason : AIFailure) :
    generateReadme fmt (.error reason) d =
      { body := generateFallbackReadme fmt d, source := .fallback } ∧
    (generateReadme fmt (.error reason) d).body ≠ "" :=
  ⟨rfl, fallback_nonempty fmt d⟩

/-- C9 amended: for every descriptor, including one with null or empty
optional fields, the fallback output consists of the twelve section blocks
(title+badges, description with the conditional private-repository notice,
features, tech stack, prerequisites, installation, usage, project structure,
contributing, license, contact) whose fixed markers occur in the fixed order;
there is no configuration section.  A missing description renders the fixed
default sentence (via `jsOr`), not an empty sub-line, while the inapplicable
prerequisite/installation/usage sub-lines render empty; the private notice is
present whenever the descriptor is private. -/
theorem fallback_sections_in_order (fmt : String → String) (d : RepoData) :
    inOrderS fallbackSectionMarkers (generateFallbackReadme fmt d) ∧
    containsSubstr (jsOr d.description "A GitHub repository that needs a description.")
      (generateFallbackReadme fmt d) = true ∧
    containsSubstr "\n## ğŸ”’ Private Repository\n\nThis is a private repository. Access is restricted to authorized collaborators only.\n\n"
      (generateFallbackReadme fmt { d with isPrivate := true }) = true := by
  refine ⟨?_, ?_, ?_⟩
  · rw [generateFallbackReadme_eq]
    exact inOrderS_concatR (fallbackSectionMarkers_sublist fmt d)
  · rw [generateFallbackReadme_eq]
    exact containsSubstr_concatR _ _ (description_mem_fallbackPieces fmt d)
  · have hpn : privateNotice { d with isPrivate := true } =
        "\n## ğŸ”’ Private Repository\n\nThis is a private repository. Access is restricted to authorized collaborators only.\n\n" := rfl
    rw [← hpn, generateFallbackReadme_eq]
    exact containsSubstr_concatR _ _
      (privateNotice_mem_fallbackPieces fmt { d with isPrivate := true })

/-- The descriptor of the specification's fallback scenario (name `demo`,
public, 5 stars, 1 fork, Go, no description, no license, two root files). -/
def demoRepo : RepoData :=
  { name := "demo", description := none, isPrivate := false, stars := 5, forks := 1,
    language := some "Go", topics := [], license := none, languages := ["Go"],
    files := ["main.go", "README.md"], url := "https://github.com/u/demo",
    createdAt := "2024-01-01T00:00:00Z", updatedAt := "2024-06-01T00:00:00Z",
    openIssues := 0, watchers := 0, defaultBranch := "main", lastCommit := "init" }

/-- A concrete date formatter standing for `toLocaleDateString`. -/
def demoDateFormat : String → String := fun _ => "6/1/2024"

/-- C9 counterexample: the fallback output has no configuration section — for
the concrete `demo` descriptor the word `Configuration` occurs nowhere in the
output (so at most twelve of the claimed thirteen sections can be present) —
and the missing description renders the placeholder sentence
`A GitHub repository that needs a description.` rather than an empty
sub-line. -/
theorem fallback_missing_configuration_cex :
    containsSubstr "Configuration" (generateFallbackReadme demoDateFormat demoRepo) = false ∧
    containsSubstr "A GitHub repository that needs a description."
      (generateFallbackReadme demoDateFormat demoRepo) = true := by
  refine ⟨by decide, by decide⟩
